import Mathlib

/-
Shallow embedding of the Eco5 backend (src/backend/server.ts, src/backend/schema.ts,
and the SQL DDL shipped with the repository). Handlers are modelled as pure
functions over an explicit database state; nondeterministic inputs of the real
code (randomUUID, the current time, the signed JWT produced by the external jwt
library) are passed as explicit arguments. Machine strings are Lean strings;
the JavaScript toLowerCase and trim on the ASCII data exercised here are
modelled by the structural helpers jsToLower and jsTrim below.
-/

namespace Eco5

/-! ### Executable string primitives

The Lean core implementations of splitting, trimming and lower-casing recurse
on byte positions and do not reduce inside the kernel, so the handful of
string operations the server uses are re-implemented here structurally over
the character list of a string. Each is a direct model of the corresponding
JavaScript or SQL operation named in its doc comment. -/

/-- Tests whether the first character list is an initial run of the second. -/
def listIsPre : List Char → List Char → Bool
  | [], _ => true
  | _ :: _, [] => false
  | a :: as, b :: bs => a == b && listIsPre as bs

/-- Tests whether the first character list occurs contiguously inside the
second. -/
def listOccurs (needle : List Char) : List Char → Bool
  | [] => needle.isEmpty
  | c :: cs => listIsPre needle (c :: cs) || listOccurs needle cs

/-- Accumulator-based single-character split. -/
def splitCharAux (sep : Char) : List Char → List Char → List String
  | [], acc => [String.mk acc.reverse]
  | c :: cs, acc =>
    if c == sep then String.mk acc.reverse :: splitCharAux sep cs []
    else splitCharAux sep cs (c :: acc)

/-- Models the JavaScript String.split with a one-character separator (also
the segmentation Express applies to request paths). -/
def splitChar (sep : Char) (s : String) : List String :=
  splitCharAux sep s.data []

/-- ASCII lower-casing of one character, the fragment of the JavaScript
toLowerCase exercised by every string in this development. -/
def jsCharLower (c : Char) : Char :=
  if 'A' ≤ c && c ≤ 'Z' then Char.ofNat (c.toNat + 32) else c

/-- Models the JavaScript toLowerCase on the ASCII data used here. -/
def jsToLower (s : String) : String :=
  String.mk (s.data.map jsCharLower)

/-- Whitespace recognized by the JavaScript trim on the data used here. -/
def isWS (c : Char) : Bool :=
  c == ' ' || c == '\t' || c == '\n' || c == '\r'

/-- Models the JavaScript trim: strips leading and trailing whitespace. -/
def jsTrim (s : String) : String :=
  String.mk (((s.data.dropWhile isWS).reverse.dropWhile isWS).reverse)

/-- Tests emptiness of a string structurally. -/
def strIsEmpty (s : String) : Bool :=
  s.data.isEmpty

/-- Tests whether a string contains a given character. -/
def strHasChar (c : Char) (s : String) : Bool :=
  s.data.any (fun d => d == c)

/-- Tests whether the first string is an initial run of the second. -/
def strStarts (pre s : String) : Bool :=
  listIsPre pre.data s.data

/-- Tests whether the first string occurs inside the second. -/
def strOccurs (needle hay : String) : Bool :=
  listOccurs needle.data hay.data

/-- HTTP methods used by the route table of server.ts. -/
inductive Method
  | GET | POST | PUT | PATCH | DELETE
deriving DecidableEq

/-- Row of the users table (DDL: id, email, name, created_at, password_hash). -/
structure UserRow where
  id : String
  email : String
  name : String
  created_at : String
  password_hash : String
deriving DecidableEq

/-- Projection returned by the SELECT id, email, name, created_at queries. -/
structure PublicUser where
  id : String
  email : String
  name : String
  created_at : String
deriving DecidableEq

def UserRow.toPublic (u : UserRow) : PublicUser :=
  ⟨u.id, u.email, u.name, u.created_at⟩

/-- Row of the user_dashboards table. The numeric carbon_footprint column is
modelled as an integer; no arithmetic is ever performed on it by the server. -/
structure DashboardRow where
  user_id : String
  carbon_footprint : Int
  historical_data : Option String
  daily_tips : Option String
  challenges : Option String
deriving DecidableEq

/-- Row of the impact_calculators table. -/
structure CalcRow where
  id : String
  user_id : String
  travel_habits : Option String
  energy_consumption : Option String
  waste_management : Option String
deriving DecidableEq

/-- Row of the eco_community_forum table. -/
structure ForumRow where
  id : String
  user_id : String
  thread_title : String
  content : String
  created_at : String
deriving DecidableEq

/-- Row of the events table. -/
structure EventRow where
  id : String
  event_name : String
  event_date : String
  location : Option String
  organizer_id : String
deriving DecidableEq

/-- Row of the alerts table. -/
structure AlertRow where
  id : String
  user_id : String
  alert_type : String
  message : String
  created_at : String
deriving DecidableEq

/-- The relational store: one list per table, as created by the DDL. -/
structure DB where
  users : List UserRow
  user_dashboards : List DashboardRow
  impact_calculators : List CalcRow
  eco_community_forum : List ForumRow
  events : List EventRow
  alerts : List AlertRow
deriving DecidableEq

/-- Success payloads the modelled handlers serialize, one constructor per
response shape appearing in server.ts. -/
inductive RBody
  /-- Error envelope built by createErrorResponse; only the error_code is
  behaviourally relevant. -/
  | err (error_code : String)
  /-- Registration success: the spread of the full inserted row (RETURNING *)
  plus the signed token. -/
  | userFull (u : UserRow) (token : String)
  /-- Single user with the public projection only. -/
  | userPublic (u : PublicUser)
  /-- User search result list. -/
  | userList (us : List PublicUser)
  /-- Login success payload. -/
  | loginOk (auth_token : String) (user_id : String)
  /-- Dashboard payload. -/
  | dash (d : DashboardRow)
  /-- Impact calculator payload. -/
  | calc (c : CalcRow)
  /-- Forum thread payload. -/
  | forum (t : ForumRow)
  /-- Event payload. -/
  | event (e : EventRow)
  /-- Alert payload. -/
  | alert (a : AlertRow)
  /-- Body of the framework default handler when no registered route matches. -/
  | defaultNotFound
deriving DecidableEq

/-- HTTP response: status code plus body. -/
structure Resp where
  status : Nat
  body : RBody
deriving DecidableEq

/-- Top-level JSON keys of each serialized body, read off the object literals
in server.ts: the error envelope has success, message, error_code, timestamp;
registration spreads the full users row (columns of the DDL) and adds token;
the user reads spread the four selected columns. -/
def bodyKeys : RBody → List String
  | .err _ => ["success", "message", "error_code", "timestamp"]
  | .userFull _ _ => ["id", "email", "name", "created_at", "password_hash", "token"]
  | .userPublic _ => ["id", "email", "name", "created_at"]
  | .userList _ => []
  | .loginOk _ _ => ["auth_token", "user_id"]
  | .dash _ => ["user_id", "carbon_footprint", "historical_data", "daily_tips", "challenges"]
  | .calc _ => ["id", "user_id", "travel_habits", "energy_consumption", "waste_management"]
  | .forum _ => ["id", "user_id", "thread_title", "content", "created_at"]
  | .event _ => ["id", "event_name", "event_date", "location", "organizer_id"]
  | .alert _ => ["id", "user_id", "alert_type", "message", "created_at"]
  | .defaultNotFound => []

/-! ### Validation layer (src/backend/schema.ts)

Request bodies are modelled post JSON parsing: a field is `none` when the key
is absent. Fields validated by z.coerce.date() are modelled as strings that
already denote parseable dates rendered canonically (toISOString); coercion of
an absent value fails, which is what the claims exercise. -/

/-- Models the zod z.string().email() format check of the external validation
library: one at-sign separating a nonempty local part from a domain that has
at least two nonempty dot-separated labels, and no spaces. All concrete emails
used below are accepted by both this model and zod. -/
def isValidEmail (s : String) : Bool :=
  match splitChar '@' s with
  | [lp, dom] =>
    !strIsEmpty lp && !strIsEmpty dom && !strHasChar ' ' s &&
      (splitChar '.' dom).length ≥ 2 && (splitChar '.' dom).all (fun l => !strIsEmpty l)
  | _ => false

/-- Checks an optional field against a constraint, vacuously true when the
field is absent (zod .optional()). -/
def optOk (p : String → Bool) : Option String → Bool
  | none => true
  | some s => p s

/-- Body of POST /api/auth/register before validation. -/
structure CreateUserBody where
  email : Option String
  name : Option String
  password_hash : Option String
deriving DecidableEq

/-- Output of createUserInputSchema. -/
structure CreateUserInput where
  email : String
  name : String
  password_hash : String
deriving DecidableEq

/-- Models createUserInputSchema.parse: email, name, password_hash all
required, email in email format, name and password_hash nonempty. -/
def parseCreateUser (b : CreateUserBody) : Option CreateUserInput :=
  match b.email, b.name, b.password_hash with
  | some e, some n, some p =>
    if isValidEmail e && n.length ≥ 1 && p.length ≥ 1 then some ⟨e, n, p⟩ else none
  | _, _, _ => none

/-- Body of PUT /api/users/:user_id before validation. -/
structure UpdateUserBody where
  id : Option String
  email : Option String
  name : Option String
  password_hash : Option String
deriving DecidableEq

/-- Output of updateUserInputSchema. -/
structure UpdateUserInput where
  id : String
  email : Option String
  name : Option String
  password_hash : Option String
deriving DecidableEq

/-- Models updateUserInputSchema.parse: id is required (z.string()); email,
name, password_hash are optional with the same per-field constraints as the
create schema. Unrecognized keys are stripped by zod, which the typed result
reflects. -/
def parseUpdateUser (b : UpdateUserBody) : Option UpdateUserInput :=
  match b.id with
  | none => none
  | some i =>
    if optOk isValidEmail b.email && optOk (fun n => n.length ≥ 1) b.name &&
        optOk (fun p => p.length ≥ 1) b.password_hash then
      some ⟨i, b.email, b.name, b.password_hash⟩
    else none

/-- Body of PATCH /api/dashboard/:user_id before validation. A doubly optional
field distinguishes an absent key (outer none) from an explicit null (inner
none), mirroring .nullable().optional() in zod. -/
structure UpdateDashboardBody where
  user_id : Option String
  carbon_footprint : Option Int
  historical_data : Option (Option String)
  daily_tips : Option (Option String)
  challenges : Option (Option String)
deriving DecidableEq

/-- Output of updateUserDashboardInputSchema. -/
structure UpdateDashboardInput where
  user_id : String
  carbon_footprint : Option Int
  historical_data : Option (Option String)
  daily_tips : Option (Option String)
  challenges : Option (Option String)
deriving DecidableEq

/-- Models updateUserDashboardInputSchema.parse: user_id is required
(z.string()); every other field is optional and otherwise unconstrained. -/
def parseUpdateDashboard (b : UpdateDashboardBody) : Option UpdateDashboardInput :=
  match b.user_id with
  | none => none
  | some i => some ⟨i, b.carbon_footprint, b.historical_data, b.daily_tips, b.challenges⟩

/-- Body of PATCH /api/events/:id before validation. The event_date string,
when present, stands for a value accepted by z.coerce.date rendered via
toISOString. -/
structure UpdateEventBody where
  id : Option String
  event_name : Option String
  event_date : Option String
  location : Option (Option String)
  organizer_id : Option String
deriving DecidableEq

/-- Output of updateEventInputSchema. -/
structure UpdateEventInput where
  id : String
  event_name : Option String
  event_date : Option String
  location : Option (Option String)
  organizer_id : Option String
deriving DecidableEq

/-- Models updateEventInputSchema.parse: id required, all other fields
optional and unconstrained beyond date coercion, which the representation
already guarantees. -/
def parseUpdateEvent (b : UpdateEventBody) : Option UpdateEventInput :=
  match b.id with
  | none => none
  | some i => some ⟨i, b.event_name, b.event_date, b.location, b.organizer_id⟩

/-- Body of POST /api/community-forum before validation. The created_at
string, when present, stands for a date accepted by z.coerce.date; an absent
created_at fails coercion (new Date(undefined) is invalid), so the field is
effectively required. -/
structure CreateForumBody where
  user_id : Option String
  thread_title : Option String
  content : Option String
  created_at : Option String
deriving DecidableEq

/-- Output of createEcoCommunityForumInputSchema. -/
structure CreateForumInput where
  user_id : String
  thread_title : String
  content : String
  created_at : String
deriving DecidableEq

/-- Models createEcoCommunityForumInputSchema.parse: user_id, thread_title
(min 1), content (min 1) and created_at (coercible date) are all required. -/
def parseCreateForum (b : CreateForumBody) : Option CreateForumInput :=
  match b.user_id, b.thread_title, b.content, b.created_at with
  | some u, some t, some c, some d =>
    if t.length ≥ 1 && c.length ≥ 1 then some ⟨u, t, c, d⟩ else none
  | _, _, _, _ => none

/-- Body of POST /api/alerts/:user_id before validation (user_id comes from
the URL, but the schema also requires it in the body). -/
structure CreateAlertBody where
  user_id : Option String
  alert_type : Option String
  message : Option String
  created_at : Option String
deriving DecidableEq

/-- Output of createAlertInputSchema. -/
structure CreateAlertInput where
  user_id : String
  alert_type : String
  message : String
  created_at : String
deriving DecidableEq

/-- Models createAlertInputSchema.parse: all four fields required, strings
unconstrained, created_at a coercible date. -/
def parseCreateAlert (b : CreateAlertBody) : Option CreateAlertInput :=
  match b.user_id, b.alert_type, b.message, b.created_at with
  | some u, some t, some m, some d => some ⟨u, t, m, d⟩
  | _, _, _, _ => none

/-! ### Authentication middleware (server.ts lines 119-149) -/

/-- Decoded JWT payload as signed by the login and register handlers. -/
structure TokenData where
  user_id : String
  email : String
deriving DecidableEq

/-- Models the token extraction of authenticateToken: the second
space-separated part of the authorization header, with the JavaScript
falsiness of undefined and of the empty string folded into none. -/
def extractBearer (authHeader : Option String) : Option String :=
  match authHeader with
  | none => none
  | some h =>
    match (splitChar ' ' h).get? 1 with
    | none => none
    | some t => if strIsEmpty t then none else some t

/-- Outcome of the authentication middleware. -/
inductive AuthResult
  | rejected (status : Nat) (error_code : String)
  | authorized (user : PublicUser)
deriving DecidableEq

/-- Models authenticateToken. The verify argument stands for jwt.verify with
the server secret: none when verification throws (forged, malformed or
expired token), some payload on success. A missing or falsy token is rejected
401 AUTH_TOKEN_MISSING; a verification failure is caught by the surrounding
try block and rejected 403 AUTH_TOKEN_INVALID; a verified token whose user id
is no longer present is rejected 401 AUTH_USER_NOT_FOUND; otherwise the
resolved user is attached to the request. -/
def authenticateToken (db : DB) (verify : String → Option TokenData)
    (authHeader : Option String) : AuthResult :=
  match extractBearer authHeader with
  | none => .rejected 401 "AUTH_TOKEN_MISSING"
  | some tok =>
    match verify tok with
    | none => .rejected 403 "AUTH_TOKEN_INVALID"
    | some d =>
      match db.users.find? (fun u => u.id == d.user_id) with
      | none => .rejected 401 "AUTH_USER_NOT_FOUND"
      | some u => .authorized u.toPublic

/-! ### Handlers -/

/-- Models POST /api/auth/register (server.ts lines 155-210). freshId stands
for randomUUID, now for the current ISO timestamp, signedToken for the jwt
library output. The duplicate check runs on the submitted email as validated,
while the INSERT stores it lower-cased and trimmed; a clash that only the
normalized email produces therefore escapes the check and violates the UNIQUE
constraint of the users table, which the catch-all turns into a 500. -/
def register (db : DB) (freshId now signedToken : String) (b : CreateUserBody) :
    Resp × DB :=
  match parseCreateUser b with
  | none => (⟨400, .err "VALIDATION_ERROR"⟩, db)
  | some v =>
    if db.users.any (fun u => u.email == v.email) then
      (⟨400, .err "USER_ALREADY_EXISTS"⟩, db)
    else
      let row : UserRow :=
        ⟨freshId, jsTrim (jsToLower v.email), jsTrim v.name, now, v.password_hash⟩
      if db.users.any (fun u => u.email == row.email) then
        (⟨500, .err "INTERNAL_SERVER_ERROR"⟩, db)
      else
        (⟨201, .userFull row signedToken⟩,
         { db with
            users := db.users ++ [row],
            user_dashboards := db.user_dashboards ++ [⟨freshId, 0, none, none, none⟩] })

/-- Models GET /api/users/:user_id (server.ts lines 262-290): SELECT of the
four public columns, 404 USER_NOT_FOUND when no row matches. -/
def getUser (db : DB) (user_id : String) : Resp :=
  match db.users.find? (fun u => u.id == user_id) with
  | none => ⟨404, .err "USER_NOT_FOUND"⟩
  | some u => ⟨200, .userPublic u.toPublic⟩

/-- Models GET /api/impact-calculator/:user_id (server.ts lines 513-551): on
a miss a fresh all-null calculator row is inserted and echoed with 200; the
INSERT is subject to the foreign key on users(id), whose violation the
catch-all turns into a 500; on a hit the stored row is returned unchanged. -/
def getImpactCalculator (db : DB) (freshId : String) (user_id : String) :
    Resp × DB :=
  match db.impact_calculators.find? (fun c => c.user_id == user_id) with
  | some c => (⟨200, .calc c⟩, db)
  | none =>
    if db.users.any (fun u => u.id == user_id) then
      let row : CalcRow := ⟨freshId, user_id, none, none, none⟩
      (⟨200, .calc row⟩,
       { db with impact_calculators := db.impact_calculators ++ [row] })
    else
      (⟨500, .err "INTERNAL_SERVER_ERROR"⟩, db)

/-- Field setters collected by the PUT /api/users/:user_id handler. -/
inductive UserField
  | email (v : String)
  | uname (v : String)
  | password_hash (v : String)
deriving DecidableEq

/-- Applies one collected SET clause of the users UPDATE statement; the email
value is lower-cased and trimmed, the name trimmed, exactly as pushed. -/
def applyUserField (f : UserField) (u : UserRow) : UserRow :=
  match f with
  | .email v => { u with email := jsTrim (jsToLower v) }
  | .uname v => { u with name := jsTrim v }
  | .password_hash v => { u with password_hash := v }

/-- The SET clauses collected by the user update handler, in push order. A
field is pushed when the validated value is truthy in JavaScript, which for
the optional strings here means present and nonempty. -/
def userUpdateFields (v : UpdateUserInput) : List UserField :=
  (match v.email with
   | some e => if strIsEmpty e then [] else [.email e]
   | none => []) ++
  (match v.name with
   | some n => if strIsEmpty n then [] else [.uname n]
   | none => []) ++
  (match v.password_hash with
   | some p => if strIsEmpty p then [] else [.password_hash p]
   | none => [])

/-- Applies a list of SET clauses to one row, first clause first. -/
def applyUserFields (fs : List UserField) (u : UserRow) : UserRow :=
  fs.foldl (fun acc f => applyUserField f acc) u

/-- Models PUT /api/users/:user_id (server.ts lines 296-356). authUserId is
the id the middleware attached to the request. Validation runs first, then
the identity guard, then the empty-update guard, then the UPDATE with a
RETURNING of the public columns of the first updated row. -/
def updateUser (db : DB) (authUserId user_id : String) (b : UpdateUserBody) :
    Resp × DB :=
  match parseUpdateUser b with
  | none => (⟨400, .err "VALIDATION_ERROR"⟩, db)
  | some v =>
    if authUserId ≠ user_id then
      (⟨403, .err "FORBIDDEN"⟩, db)
    else
      let fs := userUpdateFields v
      if fs.isEmpty then
        (⟨400, .err "NO_UPDATE_FIELDS"⟩, db)
      else
        match db.users.find? (fun u => u.id == user_id) with
        | none => (⟨404, .err "USER_NOT_FOUND"⟩, db)
        | some u =>
          (⟨200, .userPublic (applyUserFields fs u).toPublic⟩,
           { db with
              users := db.users.map (fun w =>
                if w.id == user_id then applyUserFields fs w else w) })

/-- Field setters collected by the PATCH /api/dashboard/:user_id handler. -/
inductive DashField
  | cf (v : Int)
  | hist (v : Option String)
  | tips (v : Option String)
  | chal (v : Option String)
deriving DecidableEq

/-- Applies one collected SET clause of the user_dashboards UPDATE. -/
def applyDashField (f : DashField) (d : DashboardRow) : DashboardRow :=
  match f with
  | .cf v => { d with carbon_footprint := v }
  | .hist v => { d with historical_data := v }
  | .tips v => { d with daily_tips := v }
  | .chal v => { d with challenges := v }

/-- The SET clauses of the dashboard update, pushed for every field that is
present in the validated body (the handler tests with a strict undefined
comparison, so explicit nulls and falsy values are still applied). -/
def dashUpdateFields (v : UpdateDashboardInput) : List DashField :=
  (match v.carbon_footprint with | some x => [.cf x] | none => []) ++
  (match v.historical_data with | some x => [.hist x] | none => []) ++
  (match v.daily_tips with | some x => [.tips x] | none => []) ++
  (match v.challenges with | some x => [.chal x] | none => [])

/-- Applies a list of dashboard SET clauses to one row. -/
def applyDashFields (fs : List DashField) (d : DashboardRow) : DashboardRow :=
  fs.foldl (fun acc f => applyDashField f acc) d

/-- Models PATCH /api/dashboard/:user_id (server.ts lines 445-507). -/
def patchDashboard (db : DB) (user_id : String) (b : UpdateDashboardBody) :
    Resp × DB :=
  match parseUpdateDashboard b with
  | none => (⟨400, .err "VALIDATION_ERROR"⟩, db)
  | some v =>
    let fs := dashUpdateFields v
    if fs.isEmpty then
      (⟨400, .err "NO_UPDATE_FIELDS"⟩, db)
    else
      match db.user_dashboards.find? (fun d => d.user_id == user_id) with
      | none => (⟨404, .err "DASHBOARD_NOT_FOUND"⟩, db)
      | some d =>
        (⟨200, .dash (applyDashFields fs d)⟩,
         { db with
            user_dashboards := db.user_dashboards.map (fun w =>
              if w.user_id == user_id then applyDashFields fs w else w) })

/-- Field setters collected by the PATCH /api/events/:id handler. -/
inductive EventField
  | ename (v : String)
  | edate (v : String)
  | eloc (v : Option String)
  | eorg (v : String)
deriving DecidableEq

/-- Applies one collected SET clause of the events UPDATE. -/
def applyEventField (f : EventField) (e : EventRow) : EventRow :=
  match f with
  | .ename v => { e with event_name := v }
  | .edate v => { e with event_date := v }
  | .eloc v => { e with location := v }
  | .eorg v => { e with organizer_id := v }

/-- The SET clauses of the event update. event_name and organizer_id are
tested for JavaScript truthiness, so an empty string supplied for either is
silently dropped; event_date is a Date object and therefore always truthy
when present; location is tested with a strict undefined comparison, so an
explicit null is applied. -/
def eventUpdateFields (v : UpdateEventInput) : List EventField :=
  (match v.event_name with
   | some s => if strIsEmpty s then [] else [.ename s]
   | none => []) ++
  (match v.event_date with | some s => [.edate s] | none => []) ++
  (match v.location with | some x => [.eloc x] | none => []) ++
  (match v.organizer_id with
   | some s => if strIsEmpty s then [] else [.eorg s]
   | none => [])

/-- Applies a list of event SET clauses to one row. -/
def applyEventFields (fs : List EventField) (e : EventRow) : EventRow :=
  fs.foldl (fun acc f => applyEventField f acc) e

/-- Models PATCH /api/events/:id (server.ts lines 802-861). -/
def updateEvent (db : DB) (id : String) (b : UpdateEventBody) : Resp × DB :=
  match parseUpdateEvent b with
  | none => (⟨400, .err "VALIDATION_ERROR"⟩, db)
  | some v =>
    let fs := eventUpdateFields v
    if fs.isEmpty then
      (⟨400, .err "NO_UPDATE_FIELDS"⟩, db)
    else
      match db.events.find? (fun e => e.id == id) with
      | none => (⟨404, .err "EVENT_NOT_FOUND"⟩, db)
      | some e =>
        (⟨200, .event (applyEventFields fs e)⟩,
         { db with
            events := db.events.map (fun w =>
              if w.id == id then applyEventFields fs w else w) })

/-- Models POST /api/community-forum (server.ts lines 643-674). threadId
stands for randomUUID. The handler contains a fallback to the current time
when created_at is falsy, but the validator already required created_at, so
the inserted timestamp is always the client-supplied one. The INSERT is
subject to the foreign key on users(id). -/
def createForumThread (db : DB) (threadId : String) (b : CreateForumBody) :
    Resp × DB :=
  match parseCreateForum b with
  | none => (⟨400, .err "VALIDATION_ERROR"⟩, db)
  | some v =>
    if db.users.any (fun u => u.id == v.user_id) then
      let row : ForumRow := ⟨threadId, v.user_id, v.thread_title, v.content, v.created_at⟩
      (⟨201, .forum row⟩,
       { db with eco_community_forum := db.eco_community_forum ++ [row] })
    else
      (⟨500, .err "INTERNAL_SERVER_ERROR"⟩, db)

/-- Models POST /api/alerts/:user_id (server.ts lines 1020-1052). The user_id
of the inserted row comes from the URL parameter, not the body; the same dead
fallback for a falsy created_at is present. The INSERT is subject to the
foreign key on users(id). -/
def createAlert (db : DB) (alertId user_id : String) (b : CreateAlertBody) :
    Resp × DB :=
  match parseCreateAlert b with
  | none => (⟨400, .err "VALIDATION_ERROR"⟩, db)
  | some v =>
    if db.users.any (fun u => u.id == user_id) then
      let row : AlertRow := ⟨alertId, user_id, v.alert_type, v.message, v.created_at⟩
      (⟨201, .alert row⟩, { db with alerts := db.alerts ++ [row] })
    else
      (⟨500, .err "INTERNAL_SERVER_ERROR"⟩, db)

/-- Pointwise description of the event update: the record with every
effectively supplied field replaced and every other field kept. Stated from
the specification wording (apply every supplied field and only those), with
the truthiness proviso the counterexample below forces; the theorem
update_allOrNone_spec proves the clause-list handler equal to it. -/
def eventApplied (v : UpdateEventInput) (e : EventRow) : EventRow :=
  { e with
    event_name :=
      match v.event_name with
      | some s => if strIsEmpty s then e.event_name else s
      | none => e.event_name,
    event_date := v.event_date.getD e.event_date,
    location := v.location.getD e.location,
    organizer_id :=
      match v.organizer_id with
      | some s => if strIsEmpty s then e.organizer_id else s
      | none => e.organizer_id }

/-- Pointwise description of the dashboard update: every present field
replaced, every absent field kept. -/
def dashApplied (v : UpdateDashboardInput) (d : DashboardRow) : DashboardRow :=
  { d with
    carbon_footprint := v.carbon_footprint.getD d.carbon_footprint,
    historical_data := v.historical_data.getD d.historical_data,
    daily_tips := v.daily_tips.getD d.daily_tips,
    challenges := v.challenges.getD d.challenges }

/-! ### Search handler (server.ts lines 362-402)

The handler is modelled here exactly as written; the routing section below
shows that no request can ever reach it, because the parametric user detail
route is registered first. -/

/-- Sort fields accepted by searchUserInputSchema. -/
inductive SortBy
  | name | created_at
deriving DecidableEq

/-- Sort orders accepted by searchUserInputSchema. -/
inductive SortOrder
  | asc | desc
deriving DecidableEq

/-- Validated query of GET /api/users/search, defaults applied by the schema:
limit 10, offset 0, sort_by created_at, sort_order desc. -/
structure SearchQuery where
  query : Option String
  limit : Nat
  offset : Nat
  sort_by : SortBy
  sort_order : SortOrder
deriving DecidableEq

/-- Default search query produced by searchUserInputSchema on an empty query
string. -/
def defaultSearchQuery : SearchQuery :=
  ⟨none, 10, 0, .created_at, .desc⟩

/-- Case-insensitive substring test, modelling SQL ILIKE with the pattern
percent-query-percent. -/
def containsCI (hay needle : String) : Bool :=
  strOccurs (jsToLower needle) (jsToLower hay)

/-- Key selected by the ORDER BY clause. -/
def sortKey (f : SortBy) (u : UserRow) : String :=
  match f with
  | .name => u.name
  | .created_at => u.created_at

/-- Comparison used by the ORDER BY clause, ascending or descending on the
selected textual key. -/
def sortLE (f : SortBy) (o : SortOrder) (a b : UserRow) : Bool :=
  match o with
  | .asc => sortKey f a ≤ sortKey f b
  | .desc => sortKey f b ≤ sortKey f a

/-- Models the SELECT of the search handler: optional ILIKE filter on name or
email, ORDER BY the requested key, LIMIT and OFFSET. -/
def searchUsers (db : DB) (q : SearchQuery) : Resp :=
  let filtered :=
    match q.query with
    | none => db.users
    | some s => db.users.filter (fun u => containsCI u.name s || containsCI u.email s)
  let sorted := filtered.mergeSort (sortLE q.sort_by q.sort_order)
  let page := (sorted.drop q.offset).take q.limit
  ⟨200, .userList (page.map UserRow.toPublic)⟩

/-! ### Routing (registration order of server.ts)

Express dispatches a request to the first registered route whose method and
path match; a path parameter such as :user_id matches one nonempty segment.
The matchers below appear in the exact order the routes are registered in
server.ts, and dispatch tries them in that order. The static file middleware
is not modelled: it serves only files below public/ and no API path. -/

/-- Handler selected for a request, one constructor per route of server.ts;
noRoute denotes falling through every registered route to the framework
default 404 handler. -/
inductive RouteTarget
  | register
  | login
  | getUser (user_id : String)
  | putUser (user_id : String)
  | searchUsersRoute
  | getDashboard (user_id : String)
  | patchDashboard (user_id : String)
  | getCalculator (user_id : String)
  | patchCalculator (user_id : String)
  | listForum
  | postForum
  | patchForum (id : String)
  | listEvents
  | postEvent
  | patchEvent (id : String)
  | listResources
  | postResource
  | patchResource (id : String)
  | getAlerts (user_id : String)
  | postAlert (user_id : String)
  | patchAlert (id : String)
  | health
  | spaFallback
  | noRoute
deriving DecidableEq

/-- Splits a request path into slash-separated segments. -/
def pathSegs (p : String) : List String := splitChar '/' p

/-- Route registered at server.ts line 155. -/
def rRegister (m : Method) (p : String) : Option RouteTarget :=
  match m with
  | .POST => match pathSegs p with
    | ["", "api", "auth", "register"] => some .register
    | _ => none
  | _ => none

/-- Route registered at server.ts line 216. -/
def rLogin (m : Method) (p : String) : Option RouteTarget :=
  match m with
  | .POST => match pathSegs p with
    | ["", "api", "auth", "login"] => some .login
    | _ => none
  | _ => none

/-- Route registered at server.ts line 262; the parameter matches any single
nonempty segment, including the literal segment search. -/
def rGetUser (m : Method) (p : String) : Option RouteTarget :=
  match m with
  | .GET => match pathSegs p with
    | ["", "api", "users", uid] => if strIsEmpty uid then none else some (.getUser uid)
    | _ => none
  | _ => none

/-- Route registered at server.ts line 296. -/
def rPutUser (m : Method) (p : String) : Option RouteTarget :=
  match m with
  | .PUT => match pathSegs p with
    | ["", "api", "users", uid] => if strIsEmpty uid then none else some (.putUser uid)
    | _ => none
  | _ => none

/-- Route registered at server.ts line 362, after the parametric user detail
route that shadows it. -/
def rSearchUsers (m : Method) (p : String) : Option RouteTarget :=
  match m with
  | .GET => match pathSegs p with
    | ["", "api", "users", "search"] => some .searchUsersRoute
    | _ => none
  | _ => none

/-- Route registered at server.ts line 408. -/
def rGetDashboard (m : Method) (p : String) : Option RouteTarget :=
  match m with
  | .GET => match pathSegs p with
    | ["", "api", "dashboard", uid] => if strIsEmpty uid then none else some (.getDashboard uid)
    | _ => none
  | _ => none

/-- Route registered at server.ts line 445. -/
def rPatchDashboard (m : Method) (p : String) : Option RouteTarget :=
  match m with
  | .PATCH => match pathSegs p with
    | ["", "api", "dashboard", uid] => if strIsEmpty uid then none else some (.patchDashboard uid)
    | _ => none
  | _ => none

/-- Route registered at server.ts line 513. -/
def rGetCalculator (m : Method) (p : String) : Option RouteTarget :=
  match m with
  | .GET => match pathSegs p with
    | ["", "api", "impact-calculator", uid] =>
      if strIsEmpty uid then none else some (.getCalculator uid)
    | _ => none
  | _ => none

/-- Route registered at server.ts line 557. -/
def rPatchCalculator (m : Method) (p : String) : Option RouteTarget :=
  match m with
  | .PATCH => match pathSegs p with
    | ["", "api", "impact-calculator", uid] =>
      if strIsEmpty uid then none else some (.patchCalculator uid)
    | _ => none
  | _ => none

/-- Route registered at server.ts line 615. -/
def rListForum (m : Method) (p : String) : Option RouteTarget :=
  match m with
  | .GET => match pathSegs p with
    | ["", "api", "community-forum"] => some .listForum
    | _ => none
  | _ => none

/-- Route registered at server.ts line 643. -/
def rPostForum (m : Method) (p : String) : Option RouteTarget :=
  match m with
  | .POST => match pathSegs p with
    | ["", "api", "community-forum"] => some .postForum
    | _ => none
  | _ => none

/-- Route registered at server.ts line 680. -/
def rPatchForum (m : Method) (p : String) : Option RouteTarget :=
  match m with
  | .PATCH => match pathSegs p with
    | ["", "api", "community-forum", i] => if strIsEmpty i then none else some (.patchForum i)
    | _ => none
  | _ => none

/-- Route registered at server.ts line 737. -/
def rListEvents (m : Method) (p : String) : Option RouteTarget :=
  match m with
  | .GET => match pathSegs p with
    | ["", "api", "events"] => some .listEvents
    | _ => none
  | _ => none

/-- Route registered at server.ts line 765. -/
def rPostEvent (m : Method) (p : String) : Option RouteTarget :=
  match m with
  | .POST => match pathSegs p with
    | ["", "api", "events"] => some .postEvent
    | _ => none
  | _ => none

/-- Route registered at server.ts line 802; the only parametric events route,
and the only method registered under /api/events/:id. -/
def rPatchEvent (m : Method) (p : String) : Option RouteTarget :=
  match m with
  | .PATCH => match pathSegs p with
    | ["", "api", "events", i] => if strIsEmpty i then none else some (.patchEvent i)
    | _ => none
  | _ => none

/-- Route registered at server.ts line 867. -/
def rListResources (m : Method) (p : String) : Option RouteTarget :=
  match m with
  | .GET => match pathSegs p with
    | ["", "api", "resource-library"] => some .listResources
    | _ => none
  | _ => none

/-- Route registered at server.ts line 890. -/
def rPostResource (m : Method) (p : String) : Option RouteTarget :=
  match m with
  | .POST => match pathSegs p with
    | ["", "api", "resource-library"] => some .postResource
    | _ => none
  | _ => none

/-- Route registered at server.ts line 923. -/
def rPatchResource (m : Method) (p : String) : Option RouteTarget :=
  match m with
  | .PATCH => match pathSegs p with
    | ["", "api", "resource-library", i] => if strIsEmpty i then none else some (.patchResource i)
    | _ => none
  | _ => none

/-- Route registered at server.ts line 989. -/
def rGetAlerts (m : Method) (p : String) : Option RouteTarget :=
  match m with
  | .GET => match pathSegs p with
    | ["", "api", "alerts", uid] => if strIsEmpty uid then none else some (.getAlerts uid)
    | _ => none
  | _ => none

/-- Route registered at server.ts line 1020. -/
def rPostAlert (m : Method) (p : String) : Option RouteTarget :=
  match m with
  | .POST => match pathSegs p with
    | ["", "api", "alerts", uid] => if strIsEmpty uid then none else some (.postAlert uid)
    | _ => none
  | _ => none

/-- Route registered at server.ts line 1058. -/
def rPatchAlert (m : Method) (p : String) : Option RouteTarget :=
  match m with
  | .PATCH => match pathSegs p with
    | ["", "api", "alerts", i] => if strIsEmpty i then none else some (.patchAlert i)
    | _ => none
  | _ => none

/-- Route registered at server.ts line 1112. -/
def rHealth (m : Method) (p : String) : Option RouteTarget :=
  match m with
  | .GET => match pathSegs p with
    | ["", "api", "health"] => some .health
    | _ => none
  | _ => none

/-- Catch-all registered at server.ts line 1117: GET requests whose path does
not start with /api are served the single page application entry document. -/
def rSpaFallback (m : Method) (p : String) : Option RouteTarget :=
  match m with
  | .GET => if strStarts "/api" p then none else some .spaFallback
  | _ => none

/-- Returns the first hit of a matcher list, or noRoute when every matcher
declines, mirroring the Express fall-through to its default 404 handler. -/
def firstRoute (m : Method) (p : String) :
    List (Method → String → Option RouteTarget) → RouteTarget
  | [] => .noRoute
  | r :: rest =>
    match r m p with
    | some t => t
    | none => firstRoute m p rest

/-- The complete route table of server.ts in registration order. -/
def routeTable : List (Method → String → Option RouteTarget) :=
  [rRegister, rLogin, rGetUser, rPutUser, rSearchUsers, rGetDashboard,
   rPatchDashboard, rGetCalculator, rPatchCalculator, rListForum, rPostForum,
   rPatchForum, rListEvents, rPostEvent, rPatchEvent, rListResources,
   rPostResource, rPatchResource, rGetAlerts, rPostAlert, rPatchAlert,
   rHealth, rSpaFallback]

/-- Dispatches a request to the first matching route of server.ts. -/
def dispatch (m : Method) (p : String) : RouteTarget :=
  firstRoute m p routeTable

/-! ### Seed data (DDL INSERT statements shipped with the repository) -/

/-- The users rows seeded by the DDL. -/
def seedUsers : List UserRow :=
  [⟨"user1", "john.doe@example.com", "John Doe", "2023-10-01T10:00:00Z", "password123"⟩,
   ⟨"user2", "jane.smith@example.com", "Jane Smith", "2023-10-01T11:00:00Z", "admin123"⟩]

/-- The database state produced by the seed script of the repository. -/
def seedDB : DB :=
  { users := seedUsers,
    user_dashboards :=
      [⟨"user1", 42, some "data1", some "tip1", some "challenge1"⟩,
       ⟨"user2", 38, some "data2", some "tip2", some "challenge2"⟩],
    impact_calculators :=
      [⟨"calculator1", "user1", some "car", some "high", some "recycle"⟩,
       ⟨"calculator2", "user2", some "bus", some "medium", some "compost"⟩],
    eco_community_forum :=
      [⟨"thread1", "user1", "Sustainability Tips", "Content of the first post.", "2023-10-02T12:00:00Z"⟩,
       ⟨"thread2", "user2", "Eco-Friendly Travel", "Content of the second post.", "2023-10-02T13:00:00Z"⟩],
    events :=
      [⟨"event1", "Earth Day Celebration", "2023-04-22", some "Central Park", "user1"⟩,
       ⟨"event2", "Recycling Workshop", "2023-05-15", some "Community Center", "user2"⟩],
    alerts :=
      [⟨"alert1", "user1", "Reminder", "Next eco-challenge reminder", "2023-10-03T14:00:00Z"⟩,
       ⟨"alert2", "user2", "Alert", "New sustainability event near you!", "2023-10-03T15:00:00Z"⟩] }

/-! ### Helper lemmas shared by the claim theorems -/

/-- The clause-list event update computes the pointwise description. -/
lemma applyEventFields_eventUpdateFields (v : UpdateEventInput) (e : EventRow) :
    applyEventFields (eventUpdateFields v) e = eventApplied v e := by
  obtain ⟨i, en, ed, lo, og⟩ := v
  rcases en with _ | en <;> rcases ed with _ | ed <;> rcases lo with _ | lo <;>
    rcases og with _ | og <;>
    simp only [eventUpdateFields, eventApplied, Option.getD] <;>
    first
      | (split_ifs <;> simp_all [applyEventFields, applyEventField])
      | simp_all [applyEventFields, applyEventField]

/-- The clause-list dashboard update computes the pointwise description. -/
lemma applyDashFields_dashUpdateFields (v : UpdateDashboardInput) (d : DashboardRow) :
    applyDashFields (dashUpdateFields v) d = dashApplied v d := by
  obtain ⟨i, cf, hi, ti, ch⟩ := v
  rcases cf with _ | cf <;> rcases hi with _ | hi <;> rcases ti with _ | ti <;>
    rcases ch with _ | ch <;>
    simp [dashUpdateFields, dashApplied, applyDashFields, applyDashField]

/-- A row that is present in a table with no repeated ids is the row that
find? by id returns. -/
lemma find?_id_of_mem_nodup (l : List UserRow) (u : UserRow) (hm : u ∈ l)
    (hn : (l.map (fun w => w.id)).Nodup) :
    l.find? (fun w => w.id == u.id) = some u := by
  induction l with
  | nil => cases hm
  | cons a t ih =>
    rcases List.mem_cons.mp hm with rfl | hmt
    · simp [List.find?]
    · simp only [List.map_cons, List.nodup_cons] at hn
      have ha : (a.id == u.id) = false := by
        have hu : u.id ∈ t.map (fun w => w.id) := List.mem_map_of_mem _ hmt
        simp only [beq_eq_false_iff_ne, ne_eq]
        intro h
        exact hn.1 (h ▸ hu)
      simp only [List.find?, ha]
      exact ih hmt hn.2

/-- After an append, find? falls through a first part with no hit. -/
lemma find?_append_of_none {α : Type} (p : α → Bool) (l₁ l₂ : List α)
    (h : l₁.find? p = none) : (l₁ ++ l₂).find? p = l₂.find? p := by
  induction l₁ with
  | nil => rfl
  | cons a t ih =>
    rcases hp : p a with _ | _
    · simp only [List.cons_append, List.find?, hp] at h ⊢
      exact ih h
    · simp [List.find?, hp] at h

/-! ### Claim theorems -/

/-- C1: GET /api/users/search never reaches the search handler. The user
detail route /api/users/:user_id is registered first and captures the literal
segment search as a user id, and on the seeded database the lookup of a user
with id search answers 404 USER_NOT_FOUND instead of the specified 200 with a
filtered user sequence. -/
theorem usersSearch_route_shadowed :
    dispatch .GET "/api/users/search" = .getUser "search" ∧
      getUser seedDB "search" = ⟨404, .err "USER_NOT_FOUND"⟩ ∧
      (⟨404, .err "USER_NOT_FOUND"⟩ : Resp).status ≠ 200 := by
  refine ⟨by decide, by decide, by decide⟩

/-- C2 counterexample: a forged bearer token is rejected with status 403, not
the 401 the claim states (the error kind AUTH_TOKEN_INVALID does match). -/
theorem invalidToken_status_403_not_401 :
    authenticateToken seedDB (fun _ => none) (some "Bearer forged") =
      .rejected 403 "AUTH_TOKEN_INVALID" ∧ (403 : Nat) ≠ 401 := by
  refine ⟨by decide, by decide⟩

/-- C2 amended: the middleware rejects a missing token with 401
AUTH_TOKEN_MISSING, a forged or expired token with 403 AUTH_TOKEN_INVALID, a
verified token whose user no longer exists with 401 AUTH_USER_NOT_FOUND, and
passes a verified token of an existing user through to the handler with that
user attached. -/
theorem authenticateToken_spec (db : DB) (verify : String → Option TokenData)
    (hdr : Option String) :
    (extractBearer hdr = none →
      authenticateToken db verify hdr = .rejected 401 "AUTH_TOKEN_MISSING") ∧
    (∀ tok, extractBearer hdr = some tok → verify tok = none →
      authenticateToken db verify hdr = .rejected 403 "AUTH_TOKEN_INVALID") ∧
    (∀ tok d, extractBearer hdr = some tok → verify tok = some d →
      db.users.find? (fun u => u.id == d.user_id) = none →
      authenticateToken db verify hdr = .rejected 401 "AUTH_USER_NOT_FOUND") ∧
    (∀ tok d u, extractBearer hdr = some tok → verify tok = some d →
      db.users.find? (fun u => u.id == d.user_id) = some u →
      authenticateToken db verify hdr = .authorized u.toPublic) := by
  refine ⟨fun h => ?_, fun tok h1 h2 => ?_, fun tok d h1 h2 h3 => ?_,
    fun tok d u h1 h2 h3 => ?_⟩ <;>
    simp [authenticateToken, *]

/-- C2 witness: the amended characterization applied on the seeded database,
one concrete instance per branch. -/
theorem authenticateToken_spec_witness :
    authenticateToken seedDB (fun _ => none) none = .rejected 401 "AUTH_TOKEN_MISSING" ∧
    authenticateToken seedDB (fun _ => none) (some "Bearer bad") =
      .rejected 403 "AUTH_TOKEN_INVALID" ∧
    authenticateToken seedDB (fun _ => some ⟨"ghost", "g@x.io"⟩) (some "Bearer t") =
      .rejected 401 "AUTH_USER_NOT_FOUND" ∧
    authenticateToken seedDB (fun _ => some ⟨"user1", "john.doe@example.com"⟩) (some "Bearer t") =
      .authorized ⟨"user1", "john.doe@example.com", "John Doe", "2023-10-01T10:00:00Z"⟩ :=
  ⟨(authenticateToken_spec seedDB (fun _ => none) none).1 rfl,
   (authenticateToken_spec seedDB (fun _ => none) (some "Bearer bad")).2.1 "bad" (by decide) rfl,
   (authenticateToken_spec seedDB (fun _ => some ⟨"ghost", "g@x.io"⟩) (some "Bearer t")).2.2.1
     "t" ⟨"ghost", "g@x.io"⟩ (by decide) rfl (by decide),
   (authenticateToken_spec seedDB (fun _ => some ⟨"user1", "john.doe@example.com"⟩)
       (some "Bearer t")).2.2.2 "t" ⟨"user1", "john.doe@example.com"⟩
     ⟨"user1", "john.doe@example.com", "John Doe", "2023-10-01T10:00:00Z", "password123"⟩
     (by decide) rfl (by decide)⟩

/-- C5: the route table of server.ts registers no DELETE route at all, so
every DELETE request, in particular DELETE /api/events/event1, falls through
to the framework default 404 handler and no handler ever removes the event;
the GET read of a single event likewise matches no route. -/
theorem no_delete_route :
    (∀ p, dispatch .DELETE p = .noRoute) ∧
      dispatch .DELETE "/api/events/event1" = .noRoute ∧
      dispatch .GET "/api/events/event1" = .noRoute :=
  ⟨fun _ => rfl, by decide, by decide⟩

/-- C3 counterexample: with the seeded user whose stored email is
john.doe@example.com, registering the case variant John.Doe@example.com
passes the duplicate check, which compares the submitted email before
normalization, and the insert then violates the unique email constraint: the
response is 500 INTERNAL_SERVER_ERROR, not the claimed 400
USER_ALREADY_EXISTS, though no row is created. -/
theorem register_caseVariantDuplicate_500 :
    register seedDB "user3" "2024-01-01T00:00:00Z" "tok"
        ⟨some "John.Doe@example.com", some "Dup", some "pw"⟩ =
      (⟨500, .err "INTERNAL_SERVER_ERROR"⟩, seedDB) ∧
    jsTrim (jsToLower "John.Doe@example.com") = "john.doe@example.com" ∧
    (⟨500, .err "INTERNAL_SERVER_ERROR"⟩ : Resp) ≠ ⟨400, .err "USER_ALREADY_EXISTS"⟩ := by
  refine ⟨by decide, by decide, by decide⟩

/-- C3 amended: the 400 USER_ALREADY_EXISTS rejection fires exactly when the
submitted email equals a stored email before normalization, and then nothing
is inserted; a submitted email that collides only after lower-casing and
trimming escapes the check and the insert fails on the unique constraint with
500, the store again unchanged; a successful registration appends exactly one
row whose email is stored lower-cased and trimmed, and registration never
creates a duplicate email row. -/
theorem register_spec (db : DB) (freshId now tok : String) (b : CreateUserBody)
    (v : CreateUserInput) (hp : parseCreateUser b = some v) :
    (db.users.any (fun u => u.email == v.email) = true →
      register db freshId now tok b = (⟨400, .err "USER_ALREADY_EXISTS"⟩, db)) ∧
    (db.users.any (fun u => u.email == v.email) = false →
     db.users.any (fun u => u.email == jsTrim (jsToLower v.email)) = true →
      register db freshId now tok b = (⟨500, .err "INTERNAL_SERVER_ERROR"⟩, db)) ∧
    (db.users.any (fun u => u.email == v.email) = false →
     db.users.any (fun u => u.email == jsTrim (jsToLower v.email)) = false →
      register db freshId now tok b =
        (⟨201, .userFull ⟨freshId, jsTrim (jsToLower v.email), jsTrim v.name, now,
            v.password_hash⟩ tok⟩,
         { db with
            users := db.users ++
              [⟨freshId, jsTrim (jsToLower v.email), jsTrim v.name, now, v.password_hash⟩],
            user_dashboards := db.user_dashboards ++ [⟨freshId, 0, none, none, none⟩] })) ∧
    (∀ r db2, register db freshId now tok b = (r, db2) →
      (db.users.map (fun u => u.email)).Nodup → (db2.users.map (fun u => u.email)).Nodup) := by
  refine ⟨fun h1 => by simp [register, hp, h1], fun h1 h2 => by simp [register, hp, h1, h2],
    fun h1 h2 => by simp [register, hp, h1, h2], fun r db2 hreg hnd => ?_⟩
  simp only [register, hp] at hreg
  by_cases h1 : db.users.any (fun u => u.email == v.email) = true
  · rw [if_pos h1] at hreg
    cases hreg
    exact hnd
  · rw [if_neg h1] at hreg
    by_cases h2 : db.users.any (fun u => u.email == jsTrim (jsToLower v.email)) = true
    · simp only [h2, if_true] at hreg
      cases hreg
      exact hnd
    · simp only [h2, if_false, Bool.false_eq_true] at hreg
      cases hreg
      have h2' : db.users.any (fun u => u.email == jsTrim (jsToLower v.email)) = false :=
        Bool.not_eq_true _ ▸ eq_false_of_ne_true h2
      simp only [List.map_append, List.map_cons, List.map_nil, List.nodup_append]
      refine ⟨hnd, List.nodup_singleton _, ?_⟩
      intro x hx hx1
      simp only [List.mem_singleton] at hx1
      subst hx1
      obtain ⟨w, hw, hwe⟩ := List.mem_map.mp hx
      have hfalse := List.any_eq_false.mp h2' w hw
      simp only [hwe, beq_self_eq_true] at hfalse
      exact hfalse trivial

/-- C3 witness: the amended characterization applied on the seeded database:
an exact duplicate of a stored email is rejected 400 before any insert. -/
theorem register_spec_witness :
    register seedDB "user3" "2024-01-01T00:00:00Z" "tok"
        ⟨some "john.doe@example.com", some "Dup", some "pw"⟩ =
      (⟨400, .err "USER_ALREADY_EXISTS"⟩, seedDB) :=
  (register_spec seedDB "user3" "2024-01-01T00:00:00Z" "tok"
      ⟨some "john.doe@example.com", some "Dup", some "pw"⟩
      ⟨"john.doe@example.com", "Dup", "pw"⟩ (by decide)).1 (by decide)

/-- C6 counterexample: omitting created_at from an otherwise valid forum
thread body, or from an otherwise valid alert body, fails validation with 400
VALIDATION_ERROR and inserts nothing; no server-assigned timestamp is ever
produced. -/
theorem create_missingTimestamp_400 :
    createForumThread seedDB "thread3"
        ⟨some "user1", some "Composting", some "Composting basics", none⟩ =
      (⟨400, .err "VALIDATION_ERROR"⟩, seedDB) ∧
    createAlert seedDB "alert3" "user1" ⟨some "user1", some "Reminder", some "Hello", none⟩ =
      (⟨400, .err "VALIDATION_ERROR"⟩, seedDB) ∧
    (400 : Nat) ≠ 201 := by
  refine ⟨by decide, by decide, by decide⟩

/-- C6 amended: the create validators of forum threads and alerts require the
creation timestamp, so a body omitting it is rejected 400 VALIDATION_ERROR
and the server-assigned fallback in the handlers is dead code; a supplied
timestamp is accepted as-is and the 201 response carries the full persisted
record with exactly that timestamp. -/
theorem create_timestamp_required_spec :
    (∀ b : CreateForumBody, b.created_at = none → parseCreateForum b = none) ∧
    (∀ (b : CreateForumBody) (v : CreateForumInput), parseCreateForum b = some v →
      b.created_at = some v.created_at) ∧
    (∀ (db : DB) (tid : String) (b : CreateForumBody) (v : CreateForumInput),
      parseCreateForum b = some v → db.users.any (fun u => u.id == v.user_id) = true →
      createForumThread db tid b =
        (⟨201, .forum ⟨tid, v.user_id, v.thread_title, v.content, v.created_at⟩⟩,
         { db with eco_community_forum := db.eco_community_forum ++
            [⟨tid, v.user_id, v.thread_title, v.content, v.created_at⟩] })) ∧
    (∀ b : CreateAlertBody, b.created_at = none → parseCreateAlert b = none) ∧
    (∀ (b : CreateAlertBody) (v : CreateAlertInput), parseCreateAlert b = some v →
      b.created_at = some v.created_at) ∧
    (∀ (db : DB) (aid uid : String) (b : CreateAlertBody) (v : CreateAlertInput),
      parseCreateAlert b = some v → db.users.any (fun u => u.id == uid) = true →
      createAlert db aid uid b =
        (⟨201, .alert ⟨aid, uid, v.alert_type, v.message, v.created_at⟩⟩,
         { db with alerts := db.alerts ++ [⟨aid, uid, v.alert_type, v.message, v.created_at⟩] })) := by
  refine ⟨?_, ?_, ?_, ?_, ?_, ?_⟩
  · rintro ⟨u, t, c, ca⟩ h
    simp only at h
    subst h
    cases u <;> cases t <;> cases c <;> rfl
  · intro b v h
    simp only [parseCreateForum] at h
    split at h
    all_goals
      first
        | cases h
        | (split at h <;> cases h <;> simp_all)
  · intro db tid b v hp hu
    simp [createForumThread, hp, hu]
  · rintro ⟨u, t, m, ca⟩ h
    simp only at h
    subst h
    cases u <;> cases t <;> cases m <;> rfl
  · intro b v h
    simp only [parseCreateAlert] at h
    split at h
    all_goals (cases h <;> simp_all)
  · intro db aid uid b v hp hu
    simp [createAlert, hp, hu]

/-- C6 witness: a forum thread and an alert created on the seeded database
with an explicit timestamp, which the 201 responses echo unchanged. -/
theorem create_timestamp_required_spec_witness :
    createForumThread seedDB "thread3"
        ⟨some "user1", some "Composting", some "Composting basics", some "2024-02-02T00:00:00Z"⟩ =
      (⟨201, .forum ⟨"thread3", "user1", "Composting", "Composting basics",
          "2024-02-02T00:00:00Z"⟩⟩,
       { seedDB with eco_community_forum := seedDB.eco_community_forum ++
          [⟨"thread3", "user1", "Composting", "Composting basics", "2024-02-02T00:00:00Z"⟩] }) ∧
    createAlert seedDB "alert3" "user1"
        ⟨some "user1", some "Reminder", some "Hello", some "2024-02-03T00:00:00Z"⟩ =
      (⟨201, .alert ⟨"alert3", "user1", "Reminder", "Hello", "2024-02-03T00:00:00Z"⟩⟩,
       { seedDB with alerts := seedDB.alerts ++
          [⟨"alert3", "user1", "Reminder", "Hello", "2024-02-03T00:00:00Z"⟩] }) :=
  ⟨create_timestamp_required_spec.2.2.1 seedDB "thread3"
      ⟨some "user1", some "Composting", some "Composting basics", some "2024-02-02T00:00:00Z"⟩
      ⟨"user1", "Composting", "Composting basics", "2024-02-02T00:00:00Z"⟩ (by decide) (by decide),
   create_timestamp_required_spec.2.2.2.2.2 seedDB "alert3" "user1"
      ⟨some "user1", some "Reminder", some "Hello", some "2024-02-03T00:00:00Z"⟩
      ⟨"user1", "Reminder", "Hello", "2024-02-03T00:00:00Z"⟩ (by decide) (by decide)⟩

/-- C7 counterexample: a user update body that supplies only the optional
email field, and a dashboard update body that supplies only the optional
carbon_footprint field, both fail validation, because the update schemas also
require the record identifier. -/
theorem updateValidators_reject_bodies_without_id :
    parseUpdateUser ⟨none, some "a@b.com", none, none⟩ = none ∧
    parseUpdateDashboard ⟨none, some 5, none, none, none⟩ = none := by
  refine ⟨by decide, by decide⟩

/-- C7 amended: in every update validator all fields are optional except the
record identifier, which is required (id for users, user_id for dashboards):
a body passes exactly when the identifier is present and each supplied
optional field meets its constraint, and the parsed output is the normalized
structure of precisely the recognized fields of the body. -/
theorem updateValidators_require_only_id :
    (∀ b : UpdateUserBody,
      (∃ v, parseUpdateUser b = some v) ↔
        (b.id.isSome = true ∧ optOk isValidEmail b.email = true ∧
         optOk (fun n => n.length ≥ 1) b.name = true ∧
         optOk (fun p => p.length ≥ 1) b.password_hash = true)) ∧
    (∀ (b : UpdateUserBody) (v : UpdateUserInput), parseUpdateUser b = some v →
      b.id = some v.id ∧ v.email = b.email ∧ v.name = b.name ∧
        v.password_hash = b.password_hash) ∧
    (∀ b : UpdateDashboardBody,
      (∃ v, parseUpdateDashboard b = some v) ↔ b.user_id.isSome = true) ∧
    (∀ (b : UpdateDashboardBody) (v : UpdateDashboardInput), parseUpdateDashboard b = some v →
      b.user_id = some v.user_id ∧ v.carbon_footprint = b.carbon_footprint ∧
        v.historical_data = b.historical_data ∧ v.daily_tips = b.daily_tips ∧
        v.challenges = b.challenges) := by
  refine ⟨?_, ?_, ?_, ?_⟩
  · rintro ⟨i, e, n, p⟩
    cases i <;> simp [parseUpdateUser] <;> tauto
  · rintro ⟨i, e, n, p⟩ v h
    cases i <;> simp only [parseUpdateUser] at h
    · cases h
    · split at h
      · cases h; exact ⟨rfl, rfl, rfl, rfl⟩
      · cases h
  · rintro ⟨i, cf, hi, ti, ch⟩
    cases i <;> simp [parseUpdateDashboard]
  · rintro ⟨i, cf, hi, ti, ch⟩ v h
    cases i <;> simp only [parseUpdateDashboard] at h
    · cases h
    · cases h; exact ⟨rfl, rfl, rfl, rfl, rfl⟩

/-- C7 witness: bodies carrying the identifier plus one optional field pass
both validators. -/
theorem updateValidators_require_only_id_witness :
    (∃ v, parseUpdateUser ⟨some "user1", none, some "Ann", none⟩ = some v) ∧
    (∃ v, parseUpdateDashboard ⟨some "user1", some 7, none, none, none⟩ = some v) :=
  ⟨(updateValidators_require_only_id.1 ⟨some "user1", none, some "Ann", none⟩).mpr (by decide),
   (updateValidators_require_only_id.2.2.1 ⟨some "user1", some 7, none, none, none⟩).mpr
     (by decide)⟩

/-- C9: reading the impact calculator of an existing user with no stored
calculator never answers 404: it inserts a fresh row with null travel,
energy and waste fields, answers 200 with exactly that record, and a second
read for the same user returns the same stored record, the store unchanged. -/
theorem getImpactCalculator_autocreate_spec (db : DB) (fid fid2 uid : String)
    (hu : db.users.any (fun u => u.id == uid) = true)
    (hc : db.impact_calculators.find? (fun c => c.user_id == uid) = none) :
    getImpactCalculator db fid uid =
      (⟨200, .calc ⟨fid, uid, none, none, none⟩⟩,
       { db with impact_calculators := db.impact_calculators ++ [⟨fid, uid, none, none, none⟩] }) ∧
    (getImpactCalculator db fid uid).1.status ≠ 404 ∧
    getImpactCalculator
        { db with impact_calculators := db.impact_calculators ++ [⟨fid, uid, none, none, none⟩] }
        fid2 uid =
      (⟨200, .calc ⟨fid, uid, none, none, none⟩⟩,
       { db with impact_calculators := db.impact_calculators ++ [⟨fid, uid, none, none, none⟩] }) := by
  have h1 : getImpactCalculator db fid uid =
      (⟨200, .calc ⟨fid, uid, none, none, none⟩⟩,
       { db with impact_calculators := db.impact_calculators ++ [⟨fid, uid, none, none, none⟩] }) := by
    simp [getImpactCalculator, hc, hu]
  have h2 : (db.impact_calculators ++ [(⟨fid, uid, none, none, none⟩ : CalcRow)]).find?
        (fun c => c.user_id == uid) = some ⟨fid, uid, none, none, none⟩ := by
    rw [find?_append_of_none _ _ _ hc]
    simp [List.find?]
  refine ⟨h1, by rw [h1]; simp, ?_⟩
  simp [getImpactCalculator, h2]

/-- C9 witness: on a store holding only the seeded users and no calculators,
the first read for user1 creates and returns the all-null calculator and the
second read returns the same record. -/
theorem getImpactCalculator_autocreate_spec_witness :
    getImpactCalculator ⟨seedUsers, [], [], [], [], []⟩ "calc9" "user1" =
      (⟨200, .calc ⟨"calc9", "user1", none, none, none⟩⟩,
       ⟨seedUsers, [], [⟨"calc9", "user1", none, none, none⟩], [], [], []⟩) ∧
    getImpactCalculator ⟨seedUsers, [], [⟨"calc9", "user1", none, none, none⟩], [], [], []⟩
        "calc10" "user1" =
      (⟨200, .calc ⟨"calc9", "user1", none, none, none⟩⟩,
       ⟨seedUsers, [], [⟨"calc9", "user1", none, none, none⟩], [], [], []⟩) := by
  have h := getImpactCalculator_autocreate_spec ⟨seedUsers, [], [], [], [], []⟩
    "calc9" "calc10" "user1" (by decide) (by decide)
  exact ⟨h.1, h.2.2⟩

/-- C10: a successful registration response spreads the full inserted users
row, password_hash column included, plus the token, while the single-user
read serializes only the four public columns and never password_hash. -/
theorem password_hash_exposure :
    (∀ (db : DB) (fid now tok : String) (b : CreateUserBody),
      (register db fid now tok b).1.status = 201 →
      "password_hash" ∈ bodyKeys (register db fid now tok b).1.body ∧
      ∃ u t, (register db fid now tok b).1.body = .userFull u t) ∧
    (∀ (db : DB) (uid : String), "password_hash" ∉ bodyKeys (getUser db uid).body) := by
  constructor
  · intro db fid now tok b h
    rcases hp : parseCreateUser b with _ | v
    · simp only [register, hp] at h
      simp at h
    · simp only [register, hp] at h ⊢
      by_cases h1 : db.users.any (fun u => u.email == v.email) = true
      · rw [if_pos h1] at h
        simp at h
      · rw [if_neg h1] at h ⊢
        by_cases h2 : db.users.any
            (fun u => u.email == jsTrim (jsToLower v.email)) = true
        · rw [if_pos h2] at h
          simp at h
        · rw [if_neg h2] at h ⊢
          exact ⟨by simp [bodyKeys], _, _, rfl⟩
  · intro db uid
    rcases hf : db.users.find? (fun u => u.id == uid) with _ | u <;>
      simp [getUser, hf, bodyKeys]

/-- C4 counterexample: a PATCH body for event1 that supplies the recognized
updatable field event_name as the empty string is answered 400
NO_UPDATE_FIELDS with the store unchanged, although the claim reserves that
response for bodies with zero recognized updatable fields; the truthiness
test of the handler silently drops the supplied field. -/
theorem updateEvent_emptyName_counterexample :
    (⟨some "event1", some "", none, none, none⟩ : UpdateEventBody).event_name = some "" ∧
    updateEvent seedDB "event1" ⟨some "event1", some "", none, none, none⟩ =
      (⟨400, .err "NO_UPDATE_FIELDS"⟩, seedDB) := by
  refine ⟨by decide, by decide⟩

/-- C4 amended: both update endpoints apply all effectively supplied fields
or none, where on the events endpoint a string field tested for truthiness
(event_name, organizer_id) supplied as the empty string counts as not
supplied: with zero effective fields the response is 400 NO_UPDATE_FIELDS and
the store is untouched; with at least one, either no row has the id and the
response is 404 with the store untouched, or the response is 200 with the
record carrying exactly the effective fields replaced, and only the matching
rows of the one table change. The dashboard endpoint tests presence exactly,
so every supplied field is effective there. -/
theorem update_allOrNone_spec :
    (∀ (db : DB) (id : String) (b : UpdateEventBody) (v : UpdateEventInput),
      parseUpdateEvent b = some v →
      (eventUpdateFields v = [] →
        updateEvent db id b = (⟨400, .err "NO_UPDATE_FIELDS"⟩, db)) ∧
      (∀ f fs, eventUpdateFields v = f :: fs →
        db.events.find? (fun e => e.id == id) = none →
        updateEvent db id b = (⟨404, .err "EVENT_NOT_FOUND"⟩, db)) ∧
      (∀ f fs e, eventUpdateFields v = f :: fs →
        db.events.find? (fun e => e.id == id) = some e →
        updateEvent db id b =
          (⟨200, .event (eventApplied v e)⟩,
           { db with events := db.events.map (fun w =>
              if w.id == id then eventApplied v w else w) }))) ∧
    (∀ (db : DB) (uid : String) (b : UpdateDashboardBody) (v : UpdateDashboardInput),
      parseUpdateDashboard b = some v →
      (dashUpdateFields v = [] →
        patchDashboard db uid b = (⟨400, .err "NO_UPDATE_FIELDS"⟩, db)) ∧
      (∀ f fs, dashUpdateFields v = f :: fs →
        db.user_dashboards.find? (fun d => d.user_id == uid) = none →
        patchDashboard db uid b = (⟨404, .err "DASHBOARD_NOT_FOUND"⟩, db)) ∧
      (∀ f fs d, dashUpdateFields v = f :: fs →
        db.user_dashboards.find? (fun d => d.user_id == uid) = some d →
        patchDashboard db uid b =
          (⟨200, .dash (dashApplied v d)⟩,
           { db with user_dashboards := db.user_dashboards.map (fun w =>
              if w.user_id == uid then dashApplied v w else w) }))) := by
  constructor
  · intro db id b v hp
    refine ⟨fun h0 => ?_, fun f fs hfs hfind => ?_, fun f fs e hfs hfind => ?_⟩
    · simp [updateEvent, hp, h0]
    · simp [updateEvent, hp, hfs, hfind]
    · simp only [updateEvent, hp, hfs, List.isEmpty_cons, Bool.false_eq_true, if_false,
        hfind, ← applyEventFields_eventUpdateFields]
  · intro db uid b v hp
    refine ⟨fun h0 => ?_, fun f fs hfs hfind => ?_, fun f fs d hfs hfind => ?_⟩
    · simp [patchDashboard, hp, h0]
    · simp [patchDashboard, hp, hfs, hfind]
    · simp only [patchDashboard, hp, hfs, List.isEmpty_cons, Bool.false_eq_true, if_false,
        hfind, ← applyDashFields_dashUpdateFields]

/-- C4 witness: the amended characterization applied on the seeded database:
one effective-field update on each endpoint. -/
theorem update_allOrNone_spec_witness :
    updateEvent seedDB "event1" ⟨some "event1", none, none, some (some "New Loc"), none⟩ =
      (⟨200, .event ⟨"event1", "Earth Day Celebration", "2023-04-22", some "New Loc", "user1"⟩⟩,
       { seedDB with events :=
          [⟨"event1", "Earth Day Celebration", "2023-04-22", some "New Loc", "user1"⟩,
           ⟨"event2", "Recycling Workshop", "2023-05-15", some "Community Center", "user2"⟩] }) ∧
    patchDashboard seedDB "user1" ⟨some "user1", some 10, none, none, none⟩ =
      (⟨200, .dash ⟨"user1", 10, some "data1", some "tip1", some "challenge1"⟩⟩,
       { seedDB with user_dashboards :=
          [⟨"user1", 10, some "data1", some "tip1", some "challenge1"⟩,
           ⟨"user2", 38, some "data2", some "tip2", some "challenge2"⟩] }) := by
  have he := (update_allOrNone_spec.1 seedDB "event1"
      ⟨some "event1", none, none, some (some "New Loc"), none⟩
      ⟨"event1", none, none, some (some "New Loc"), none⟩ rfl).2.2
    (.eloc (some "New Loc")) []
    ⟨"event1", "Earth Day Celebration", "2023-04-22", some "Central Park", "user1"⟩
    (by decide) (by decide)
  have hd := (update_allOrNone_spec.2 seedDB "user1"
      ⟨some "user1", some 10, none, none, none⟩
      ⟨"user1", some 10, none, none, none⟩ rfl).2.2
    (.cf 10) [] ⟨"user1", 42, some "data1", some "tip1", some "challenge1"⟩
    (by decide) (by decide)
  rw [he, hd]
  refine ⟨by decide, by decide⟩

/-- C8: on a store with no repeated user ids, a user updating the own profile
with a body that passes validation and supplies at least one effective field
is answered 200 with the updated public record and exactly the matching row
updated, while the same validated body aimed at a different user id than the
authenticated one is answered 403 FORBIDDEN with the store untouched,
whatever fields it carries. -/
theorem updateUser_ownProfile_spec :
    (∀ (db : DB) (u : UserRow) (b : UpdateUserBody) (v : UpdateUserInput),
      u ∈ db.users → (db.users.map (fun w => w.id)).Nodup →
      parseUpdateUser b = some v → ∀ f fs, userUpdateFields v = f :: fs →
      updateUser db u.id u.id b =
        (⟨200, .userPublic (applyUserFields (userUpdateFields v) u).toPublic⟩,
         { db with users := db.users.map (fun w =>
            if w.id == u.id then applyUserFields (userUpdateFields v) w else w) })) ∧
    (∀ (db : DB) (authId targetId : String) (b : UpdateUserBody) (v : UpdateUserInput),
      parseUpdateUser b = some v → authId ≠ targetId →
      updateUser db authId targetId b = (⟨403, .err "FORBIDDEN"⟩, db)) := by
  constructor
  · intro db u b v hm hn hp f fs hfs
    have hfind := find?_id_of_mem_nodup db.users u hm hn
    simp only [updateUser, hp, ne_eq, not_true_eq_false, if_false, hfs,
      List.isEmpty_cons, Bool.false_eq_true, hfind]
  · intro db authId targetId b v hp hne
    simp [updateUser, hp, hne]

/-- C8 witness: on the seeded database, user1 renaming the own profile gets
200 with the updated record, and user2 aiming the same body at user1 gets
403. -/
theorem updateUser_ownProfile_spec_witness :
    updateUser seedDB "user1" "user1" ⟨some "user1", none, some " Johnny ", none⟩ =
      (⟨200, .userPublic ⟨"user1", "john.doe@example.com", "Johnny", "2023-10-01T10:00:00Z"⟩⟩,
       { seedDB with users :=
          [⟨"user1", "john.doe@example.com", "Johnny", "2023-10-01T10:00:00Z", "password123"⟩,
           ⟨"user2", "jane.smith@example.com", "Jane Smith", "2023-10-01T11:00:00Z", "admin123"⟩] }) ∧
    updateUser seedDB "user2" "user1" ⟨some "user1", none, some " Johnny ", none⟩ =
      (⟨403, .err "FORBIDDEN"⟩, seedDB) := by
  have h1 := updateUser_ownProfile_spec.1 seedDB
    ⟨"user1", "john.doe@example.com", "John Doe", "2023-10-01T10:00:00Z", "password123"⟩
    ⟨some "user1", none, some " Johnny ", none⟩
    ⟨"user1", none, some " Johnny ", none⟩
    (by decide) (by decide) rfl (.uname " Johnny ") [] (by decide)
  have h2 := updateUser_ownProfile_spec.2 seedDB "user2" "user1"
    ⟨some "user1", none, some " Johnny ", none⟩
    ⟨"user1", none, some " Johnny ", none⟩ rfl (by decide)
  rw [h1, h2]
  refine ⟨by decide, by decide⟩

/-- C10 witness: a concrete successful registration exposes password_hash in
its body, and a concrete user read does not. -/
theorem password_hash_exposure_witness :
    "password_hash" ∈ bodyKeys
      (register seedDB "user3" "now" "tok"
        ⟨some "new.user@example.com", some "New", some "pw"⟩).1.body ∧
    "password_hash" ∉ bodyKeys (getUser seedDB "user1").body :=
  ⟨(password_hash_exposure.1 seedDB "user3" "now" "tok"
      ⟨some "new.user@example.com", some "New", some "pw"⟩ (by decide)).1,
   password_hash_exposure.2 seedDB "user1"⟩

end Eco5
